import Mathlib

/-!
Shallow embedding of the translation core of the bucolin-translator-website
repository (src/app.py and src/config.py): the mock responder
(`MockTranslationService.translate`), the remote responder
(`APITranslationService.translate`) and the dispatcher
(`TurkishTranslator.translate_text`).

Modelling conventions:
* Python floats are modelled as exact rationals (ℚ).
* Python dict results are modelled by the record `TransRecord`, with `Option`
  fields for keys that are present only on some paths.
* `str.lower`, `str.split()` and `str.strip()` are modelled on the ASCII
  range (the whitespace and cased characters that actually occur in the
  repository's data).
* The network is modelled by a function `Nat → HttpOutcome` giving the
  outcome of each POST attempt, and elapsed wall-clock time by a function
  `Nat → ℚ` giving the value of `time.time() - start_time` observed at the
  attempt on which the call returns.
-/

namespace Bucolin

/-- ASCII whitespace predicate used by Python's `str.split()` / `str.strip()`. -/
def pyIsSpace (c : Char) : Bool :=
  c = ' ' || c = '\t' || c = '\n' || c = '\r' || c = '\x0b' || c = '\x0c'

/-- Python `str.lower` on a single character, ASCII range. -/
def pyLowerChar (c : Char) : Char :=
  if 65 ≤ c.toNat ∧ c.toNat ≤ 90 then Char.ofNat (c.toNat + 32) else c

/-- Python `str.lower`, ASCII range (`text.lower()` in `app.py` line 30). -/
def pyLower (s : String) : String :=
  String.mk (s.data.map pyLowerChar)

/-- Python `str.split()` with no argument: split on whitespace runs,
dropping empty pieces (`.split()` in `app.py` line 30). -/
def pySplit (s : String) : List String :=
  ((s.data.splitOnP pyIsSpace).map String.mk).filter (fun w => w ≠ "")

/-- Python `str.strip()`: drop leading and trailing whitespace
(`text.strip()` in `app.py` line 108). -/
def pyStrip (s : String) : String :=
  String.mk (((s.data.dropWhile pyIsSpace).reverse.dropWhile pyIsSpace).reverse)

/-! ### Configuration constants (src/config.py, class PublicConfig) -/

/-- `PublicConfig.MAX_TEXT_LENGTH = 5000`. -/
def MAX_TEXT_LENGTH : Nat := 5000

/-- `PublicConfig.MOCK_PROCESSING_TIME = 0.8`. -/
def MOCK_PROCESSING_TIME : ℚ := 0.8

/-- `PublicConfig.MOCK_CONFIDENCE_THRESHOLD = 0.7`. -/
def MOCK_CONFIDENCE_THRESHOLD : ℚ := 0.7

/-! ### The result object (spec section 3) -/

/-- The transient translation-result dict passed between the dispatch layer
and the presentation layer.  A field is `none` when the corresponding key is
absent from the Python dict on that path. -/
structure TransRecord where
  success : Bool
  original_text : Option String := none
  translated_text : Option String := none
  error : Option String := none
  confidence : Option ℚ := none
  processing_time : Option ℚ := none
  word_count : Option Nat := none
  recognized_words : Option Nat := none
  service_used : Option String := none
deriving DecidableEq, Repr

/-- The data-model invariant of spec section 3: success implies
`translated_text` present; failure implies an error message present. -/
def resultInvariant (r : TransRecord) : Prop :=
  (r.success = true → r.translated_text.isSome = true) ∧
  (r.success = false → r.error.isSome = true)

instance (r : TransRecord) : Decidable (resultInvariant r) := by
  unfold resultInvariant; infer_instance

/-! ### MockTranslationService (app.py lines 12-53) -/

/-- The fixed mock dictionary (`mock_translations` in `app.py`); the
non-ASCII key characters are exactly the code points in the source file. -/
def mock_translations : List (String × String) :=
  [("merhaba", "hello"),
   ("selam", "greetings"),
   ("kitap", "book"),
   ("ev", "house"),
   ("su", "water"),
   ("yemek", "food"),
   ("g√ºzel", "beautiful"),
   ("b√ºy√ºk", "big"),
   ("k√º√ß√ºk", "small")]

/-- Dict lookup `mock_translations[word]` guarded by `word in mock_translations`. -/
def mockLookup (w : String) : Option String :=
  (mock_translations.find? (fun p => p.1 == w)).map Prod.snd

/-- `MockTranslationService.translate` (app.py lines 15-53).  The
`time.sleep` is side-effect only; the returned dict is modelled exactly. -/
def mockTranslate (text : String) : TransRecord :=
  let words := pySplit (pyLower text)
  let translated_words := words.map (fun w =>
    match mockLookup w with
    | some t => t
    | none => "[" ++ w ++ "]")
  let confidence_scores : List ℚ := words.map (fun w =>
    if (mockLookup w).isSome then MOCK_CONFIDENCE_THRESHOLD + 0.2 else 0.3)
  let avg_confidence : ℚ :=
    if confidence_scores.length = 0 then 0
    else confidence_scores.sum / confidence_scores.length
  { success := true
    original_text := some text
    translated_text := some (String.intercalate " " translated_words)
    confidence := some avg_confidence
    processing_time := some MOCK_PROCESSING_TIME
    word_count := some words.length
    recognized_words := some (words.filter (fun w => (mockLookup w).isSome)).length }

/-! ### APITranslationService (app.py lines 55-94) -/

/-- Outcome of one `requests.post` attempt: either a response with a status
code and a (decoded JSON) body, or a raised `requests.exceptions.RequestException`. -/
inductive HttpOutcome where
  | response (status : Nat) (body : TransRecord)
  | exception
deriving DecidableEq

/-- `self.max_retries = 3` (app.py line 60). -/
def max_retries : Nat := 3

/-- The sleep executed at the end of a failed attempt:
`time.sleep(2 ** attempt)` (app.py line 94). -/
def attemptSleep (attempt : Nat) : ℚ := 2 ^ attempt

def unavailableMsg : String := "Translation service is currently unavailable"

def cannotConnectMsg : String := "Cannot connect to translation service"

/-- A locally constructed failure dict of `APITranslationService.translate`. -/
def failRec (msg : String) (t : ℚ) : TransRecord :=
  { success := false, error := some msg, processing_time := some t }

/-- The 200 path: the upstream JSON body is passed through unchanged apart
from the added `processing_time` field (app.py lines 76-78). -/
def passthrough (body : TransRecord) (t : ℚ) : TransRecord :=
  { body with processing_time := some t }

/-- Observable trace of one `APITranslationService.translate` call: the
returned dict (`none` if the `for` loop were exhausted without returning,
possible only with a zero retry ceiling), the list of back-off sleep
durations executed, and the number of POST attempts made. -/
structure ApiRun where
  result : Option TransRecord
  sleeps : List ℚ
  attempts : Nat
deriving DecidableEq, Repr

/-- The retry loop of `APITranslationService.translate` (app.py lines 67-94),
with the fuel argument counting the attempts left in `range(max_retries)`.
`o` gives each attempt's outcome, `e` the elapsed time observed at an attempt. -/
def apiLoop (o : Nat → HttpOutcome) (e : Nat → ℚ) (maxR : Nat) :
    Nat → Nat → ApiRun
  | 0, _ => ⟨none, [], 0⟩
  | remaining + 1, attempt =>
    match o attempt with
    | .response status body =>
      if status = 200 then ⟨some (passthrough body (e attempt)), [], 1⟩
      else ⟨some (failRec unavailableMsg (e attempt)), [], 1⟩
    | .exception =>
      if attempt = maxR - 1 then
        ⟨some (failRec cannotConnectMsg (e attempt)), [], 1⟩
      else
        let rest := apiLoop o e maxR remaining (attempt + 1)
        ⟨rest.result, attemptSleep attempt :: rest.sleeps, rest.attempts + 1⟩

/-- `APITranslationService.translate` for one call, as its observable trace. -/
def apiTranslate (o : Nat → HttpOutcome) (e : Nat → ℚ) : ApiRun :=
  apiLoop o e max_retries max_retries 0

/-- With at least one attempt of fuel aligned with the ceiling, the loop
always returns a dict (every branch of the loop body returns). -/
theorem apiLoop_result_isSome (o : Nat → HttpOutcome) (e : Nat → ℚ) :
    ∀ remaining attempt, 1 ≤ remaining → attempt + remaining = max_retries →
      (apiLoop o e max_retries remaining attempt).result.isSome = true := by
  intro remaining
  induction remaining with
  | zero => intro attempt h; omega
  | succ n ih =>
    intro attempt _ halign
    unfold apiLoop
    cases ho : o attempt with
    | response status body =>
      by_cases hs : status = 200 <;> simp [hs]
    | exception =>
      by_cases hl : attempt = max_retries - 1
      · simp [hl]
      · have hn : 1 ≤ n := by
          unfold max_retries at halign hl; omega
        simp only [if_neg hl]
        exact ih (attempt + 1) hn (by omega)

/-- `APITranslationService.translate` as a `String → TransRecord` responder,
usable as the `self.service` slot of `TurkishTranslator`.  The outcome and
elapsed-time environments `o`, `e` describe the network during this call. -/
def apiService (o : Nat → HttpOutcome) (e : Nat → ℚ) : String → TransRecord :=
  fun _ => (apiTranslate o e).result.get
    (apiLoop_result_isSome o e max_retries 0 (by decide) rfl)

/-! ### TurkishTranslator (app.py lines 96-116) -/

/-- `TurkishTranslator.translate_text` (app.py lines 107-116), parameterised
by the selected responder (`self.service.translate`) and its display name. -/
def translate_text (service : String → TransRecord) (service_name : String)
    (text : String) : TransRecord :=
  if pyStrip text = "" then
    { success := false, error := some "Please enter some text to translate" }
  else if text.length > MAX_TEXT_LENGTH then
    { success := false,
      error := some "Text too long. Maximum 5000 characters allowed." }
  else
    { service text with service_used := some service_name }

/-! ### Helper lemmas -/

theorem char_toNat_ofNat (n : Nat) (h : n.isValidChar) : (Char.ofNat n).toNat = n := by
  unfold Char.ofNat
  rw [dif_pos h]
  rfl

theorem pyLowerChar_idem (c : Char) : pyLowerChar (pyLowerChar c) = pyLowerChar c := by
  unfold pyLowerChar
  by_cases h : 65 ≤ c.toNat ∧ c.toNat ≤ 90
  · rw [if_pos h]
    have hv : (c.toNat + 32).isValidChar := Or.inl (by omega)
    have ht : (Char.ofNat (c.toNat + 32)).toNat = c.toNat + 32 := char_toNat_ofNat _ hv
    rw [if_neg (by rw [ht]; omega)]
  · rw [if_neg h, if_neg h]

theorem pyLower_idem (s : String) : pyLower (pyLower s) = pyLower s := by
  show String.mk (((s.data.map pyLowerChar)).map pyLowerChar) = String.mk (s.data.map pyLowerChar)
  rw [List.map_map]
  exact congrArg String.mk (List.map_congr_left (fun c _ => pyLowerChar_idem c))

theorem sum_map_const (l : List String) (c : ℚ) :
    (l.map (fun _ => c)).sum = l.length * c := by
  induction l with
  | nil => simp
  | cons a t ih => simp [ih]; ring

/-! ### Claim theorems -/

/-- C5: for every input string that is empty or consists only of whitespace,
`TurkishTranslator.translate_text` returns a failure result (success false
with an error message) without invoking either responder's translate method,
in both mock mode and remote mode — the result is the same literal validation
failure for every possible responder `service`. -/
theorem C5_blank_input_rejected (text : String) (h : pyStrip text = "")
    (service : String → TransRecord) (service_name : String) :
    translate_text service service_name text =
      { success := false, error := some "Please enter some text to translate" } := by
  simp [translate_text, h]

theorem C5_blank_input_rejected_witness :
    pyStrip "   " = "" ∧
    translate_text mockTranslate "Mock Service (Development)" "   " =
      { success := false, error := some "Please enter some text to translate" } :=
  ⟨by decide, C5_blank_input_rejected "   " (by decide) mockTranslate
    "Mock Service (Development)"⟩

/-- C9: `MockTranslationService.translate` has no failure path: for every
input string it returns success true with `original_text` equal to the input,
a `translated_text`, a `confidence`, the fixed `processing_time`
(`MOCK_PROCESSING_TIME`), a `word_count`, and a `recognized_words` count. -/
theorem C9_mock_no_failure (text : String) :
    (mockTranslate text).success = true ∧
    (mockTranslate text).original_text = some text ∧
    (mockTranslate text).translated_text.isSome = true ∧
    (mockTranslate text).confidence.isSome = true ∧
    (mockTranslate text).processing_time = some MOCK_PROCESSING_TIME ∧
    (mockTranslate text).word_count.isSome = true ∧
    (mockTranslate text).recognized_words.isSome = true := by
  simp [mockTranslate]

/-- C10: mock dictionary matching is case-insensitive — for every input text,
`MockTranslationService.translate` returns the same `translated_text`,
`confidence`, `word_count` and `recognized_words` as it does for the
lowercased text, while `original_text` preserves the input exactly as
given, casing included. -/
theorem C10_case_insensitive (text : String) :
    (mockTranslate text).translated_text =
      (mockTranslate (pyLower text)).translated_text ∧
    (mockTranslate text).confidence = (mockTranslate (pyLower text)).confidence ∧
    (mockTranslate text).word_count = (mockTranslate (pyLower text)).word_count ∧
    (mockTranslate text).recognized_words =
      (mockTranslate (pyLower text)).recognized_words ∧
    (mockTranslate text).original_text = some text := by
  simp [mockTranslate, pyLower_idem]

/-- C7: for every input with at least one word, all of whose lowercased
whitespace-separated words are absent from the mock dictionary,
`MockTranslationService.translate` returns a `translated_text` in which every
word appears wrapped in square brackets, `recognized_words` equal to 0, and
`confidence` equal to the minimum per-word score 0.3. -/
theorem C7_all_unknown_words (text : String)
    (hwords : pySplit (pyLower text) ≠ [])
    (hu : ∀ w ∈ pySplit (pyLower text), mockLookup w = none) :
    (mockTranslate text).translated_text =
      some (String.intercalate " "
        ((pySplit (pyLower text)).map (fun w => "[" ++ w ++ "]"))) ∧
    (mockTranslate text).recognized_words = some 0 ∧
    (mockTranslate text).confidence = some 0.3 := by
  have hmap : (pySplit (pyLower text)).map (fun w =>
      match mockLookup w with
      | some t => t
      | none => "[" ++ w ++ "]") =
      (pySplit (pyLower text)).map (fun w => "[" ++ w ++ "]") :=
    List.map_congr_left (fun w hw => by rw [hu w hw])
  have hscore : (pySplit (pyLower text)).map (fun w =>
      if (mockLookup w).isSome then MOCK_CONFIDENCE_THRESHOLD + 0.2 else (0.3 : ℚ)) =
      (pySplit (pyLower text)).map (fun _ => (0.3 : ℚ)) :=
    List.map_congr_left (fun w hw => by rw [hu w hw]; rfl)
  have hfilter : (pySplit (pyLower text)).filter (fun w => (mockLookup w).isSome) = [] := by
    rw [List.filter_eq_nil_iff]
    intro w hw
    rw [hu w hw]
    decide
  have hlen : ((pySplit (pyLower text)).length : ℚ) ≠ 0 := by
    simp [List.length_eq_zero]
    exact hwords
  refine ⟨?_, ?_, ?_⟩
  · simp only [mockTranslate, hmap]
  · simp only [mockTranslate, hfilter]
    rfl
  · simp only [mockTranslate, hscore, sum_map_const, List.length_map]
    rw [if_neg (by simpa [List.length_eq_zero] using hwords)]
    congr 1
    rw [mul_comm, mul_div_assoc, div_self hlen, mul_one]

theorem C7_all_unknown_words_witness :
    (∀ w ∈ pySplit (pyLower "Foo bar"), mockLookup w = none) ∧
    (mockTranslate "Foo bar").translated_text = some "[foo] [bar]" ∧
    (mockTranslate "Foo bar").recognized_words = some 0 ∧
    (mockTranslate "Foo bar").confidence = some (0.3 : ℚ) := by
  have h := C7_all_unknown_words "Foo bar" (by decide) (by decide)
  refine ⟨by decide, ?_, h.2.1, h.2.2⟩
  rw [h.1]; decide

/-- C8: for every input with at least one word, all of whose lowercased
whitespace-separated words are present in the mock dictionary (for example
"merhaba ev"), `MockTranslationService.translate` returns a `translated_text`
in which every word is replaced by its dictionary entry (no bracketed words),
`recognized_words` equal to `word_count`, and a confidence strictly above the
unknown-word floor of 0.3. -/
theorem C8_all_known_words (text : String)
    (hwords : pySplit (pyLower text) ≠ [])
    (hk : ∀ w ∈ pySplit (pyLower text), (mockLookup w).isSome = true) :
    (mockTranslate text).translated_text =
      some (String.intercalate " "
        ((pySplit (pyLower text)).map (fun w => (mockLookup w).getD w))) ∧
    (mockTranslate text).recognized_words = (mockTranslate text).word_count ∧
    (mockTranslate text).word_count = some (pySplit (pyLower text)).length ∧
    (mockTranslate text).confidence = some (MOCK_CONFIDENCE_THRESHOLD + 0.2) ∧
    (0.3 : ℚ) < MOCK_CONFIDENCE_THRESHOLD + 0.2 := by
  have hmap : (pySplit (pyLower text)).map (fun w =>
      match mockLookup w with
      | some t => t
      | none => "[" ++ w ++ "]") =
      (pySplit (pyLower text)).map (fun w => (mockLookup w).getD w) :=
    List.map_congr_left (fun w hw => by
      rcases Option.isSome_iff_exists.mp (hk w hw) with ⟨t, ht⟩
      rw [ht]
      rfl)
  have hscore : (pySplit (pyLower text)).map (fun w =>
      if (mockLookup w).isSome then MOCK_CONFIDENCE_THRESHOLD + 0.2 else (0.3 : ℚ)) =
      (pySplit (pyLower text)).map (fun _ => MOCK_CONFIDENCE_THRESHOLD + (0.2 : ℚ)) :=
    List.map_congr_left (fun w hw => by rw [hk w hw]; rfl)
  have hfilter : (pySplit (pyLower text)).filter (fun w => (mockLookup w).isSome) =
      pySplit (pyLower text) := by
    rw [List.filter_eq_self]
    exact hk
  have hlen : ((pySplit (pyLower text)).length : ℚ) ≠ 0 := by
    simp [List.length_eq_zero]
    exact hwords
  refine ⟨?_, ?_, rfl, ?_, by norm_num [MOCK_CONFIDENCE_THRESHOLD]⟩
  · simp only [mockTranslate, hmap]
  · simp only [mockTranslate, hfilter]
  · simp only [mockTranslate, hscore, sum_map_const, List.length_map]
    rw [if_neg (by simpa [List.length_eq_zero] using hwords)]
    congr 1
    rw [mul_comm, mul_div_assoc, div_self hlen, mul_one]

theorem C8_all_known_words_witness :
    (∀ w ∈ pySplit (pyLower "Merhaba ev"), (mockLookup w).isSome = true) ∧
    (mockTranslate "Merhaba ev").translated_text = some "hello house" ∧
    (mockTranslate "Merhaba ev").recognized_words = (mockTranslate "Merhaba ev").word_count ∧
    (mockTranslate "Merhaba ev").word_count = some 2 ∧
    (mockTranslate "Merhaba ev").confidence = some (9/10 : ℚ) := by
  have h := C8_all_known_words "Merhaba ev" (by decide) (by decide)
  refine ⟨by decide, ?_, h.2.1, h.2.2.1, ?_⟩
  · rw [h.1]; decide
  · rw [h.2.2.2.1]; norm_num [MOCK_CONFIDENCE_THRESHOLD]

/-- C2: when every HTTP POST attempt raises a transport-level error,
`APITranslationService.translate` makes exactly `max_retries` (3) attempts,
then returns a failure result with the generic connection-failure message
"Cannot connect to translation service"; the sleep durations between
consecutive attempts form the geometrically increasing sequence 2^0 seconds,
then 2^1 seconds. -/
theorem C2_retry_exhaustion (o : Nat → HttpOutcome) (e : Nat → ℚ)
    (h : ∀ a, o a = HttpOutcome.exception) :
    (apiTranslate o e).attempts = max_retries ∧ max_retries = 3 ∧
    (apiTranslate o e).result = some (failRec cannotConnectMsg (e 2)) ∧
    cannotConnectMsg = "Cannot connect to translation service" ∧
    (apiTranslate o e).sleeps = [2 ^ 0, 2 ^ 1] := by
  have h0 := h 0
  have h1 := h 1
  have h2 := h 2
  refine ⟨?_, rfl, ?_, rfl, ?_⟩ <;>
    simp [apiTranslate, max_retries, apiLoop, h0, h1, h2, attemptSleep]

theorem C2_retry_exhaustion_witness :
    (fun _ : Nat => HttpOutcome.exception) 0 = HttpOutcome.exception ∧
    (apiTranslate (fun _ => HttpOutcome.exception) (fun _ => 0)).attempts = max_retries ∧
    (apiTranslate (fun _ => HttpOutcome.exception) (fun _ => 0)).result =
      some (failRec cannotConnectMsg 0) ∧
    (apiTranslate (fun _ => HttpOutcome.exception) (fun _ => 0)).sleeps = [2 ^ 0, 2 ^ 1] := by
  have h := C2_retry_exhaustion (fun _ => HttpOutcome.exception) (fun _ => 0) (fun _ => rfl)
  exact ⟨rfl, h.1, h.2.2.1, h.2.2.2.2⟩

/-- C3: if an HTTP POST attempt completes with a non-200 status code,
`APITranslationService.translate` performs no further attempts and no
further sleep: it returns immediately (attempt count k+1, sleeps only the
ones from the k earlier transport failures) a failure result with the
generic message "Translation service is currently unavailable", regardless
of which attempt number it was and independent of the upstream body. -/
theorem C3_non200_immediate (o : Nat → HttpOutcome) (e : Nat → ℚ)
    (k status : Nat) (body : TransRecord) (hk : k < max_retries)
    (hpre : ∀ a, a < k → o a = HttpOutcome.exception)
    (hval : o k = HttpOutcome.response status body) (hstatus : status ≠ 200) :
    (apiTranslate o e).attempts = k + 1 ∧
    (apiTranslate o e).result = some (failRec unavailableMsg (e k)) ∧
    unavailableMsg = "Translation service is currently unavailable" ∧
    (apiTranslate o e).sleeps = (List.range k).map attemptSleep := by
  have hk3 : k < 3 := hk
  interval_cases k
  · refine ⟨?_, ?_, rfl, ?_⟩ <;>
      simp [apiTranslate, max_retries, apiLoop, hval, hstatus]
  · have h0 := hpre 0 (by omega)
    refine ⟨?_, ?_, rfl, ?_⟩ <;>
      simp [apiTranslate, max_retries, apiLoop, h0, hval, hstatus, List.range_succ]
  · have h0 := hpre 0 (by omega)
    have h1 := hpre 1 (by omega)
    refine ⟨?_, ?_, rfl, ?_⟩ <;>
      simp [apiTranslate, max_retries, apiLoop, h0, h1, hval, hstatus, List.range_succ]

theorem C3_non200_immediate_witness :
    1 < max_retries ∧
    (apiTranslate (fun a => if a = 0 then HttpOutcome.exception
        else HttpOutcome.response 500 { success := false }) (fun _ => 0)).attempts = 2 ∧
    (apiTranslate (fun a => if a = 0 then HttpOutcome.exception
        else HttpOutcome.response 500 { success := false }) (fun _ => 0)).result =
      some (failRec unavailableMsg 0) ∧
    (apiTranslate (fun a => if a = 0 then HttpOutcome.exception
        else HttpOutcome.response 500 { success := false }) (fun _ => 0)).sleeps =
      (List.range 1).map attemptSleep := by
  have h := C3_non200_immediate
    (fun a => if a = 0 then HttpOutcome.exception else HttpOutcome.response 500 { success := false })
    (fun _ => 0) 1 500 { success := false } (by decide)
    (fun a ha => by interval_cases a; rfl) rfl (by decide)
  exact ⟨by decide, h.1, h.2.1, h.2.2.2⟩

/-- C4, counterexample: the claim says the back-off sleep before retry
attempt k is a fixed constant times k for every attempt index, with no cap.
The code sleeps `2 ** attempt`, i.e. `attemptSleep (k-1) = 2^(k-1)` before
retry attempt k; no single constant c fits the first three retry indices
(1 = c·1 and 2 = c·2 force c = 1, but the sleep before retry attempt 3 is
4 ≠ 1·3). -/
theorem C4_backoff_linear_counterexample :
    ¬ ∃ c : ℚ, attemptSleep 0 = c * 1 ∧ attemptSleep 1 = c * 2 ∧ attemptSleep 2 = c * 3 := by
  rintro ⟨c, hc1, hc2, hc3⟩
  simp [attemptSleep] at hc1 hc2 hc3
  rw [← hc1] at hc3
  norm_num at hc3

/-- C4, amended: the back-off sleep executed after failed attempt k is
`2^k` seconds — geometrically doubling in the attempt index, not linear —
and under the configured ceiling of 3 attempts the realized sleeps of a
fully failing call are exactly `[2^0, 2^1]`. -/
theorem C4_backoff_geometric (k : Nat) (o : Nat → HttpOutcome) (e : Nat → ℚ)
    (h : ∀ a, o a = HttpOutcome.exception) :
    attemptSleep k = 2 ^ k ∧
    attemptSleep (k + 1) = 2 * attemptSleep k ∧
    (apiTranslate o e).sleeps = [attemptSleep 0, attemptSleep 1] := by
  have h0 := h 0
  have h1 := h 1
  have h2 := h 2
  refine ⟨rfl, ?_, ?_⟩
  · simp [attemptSleep, pow_succ]
    ring
  · simp [apiTranslate, max_retries, apiLoop, h0, h1, h2]

theorem C4_backoff_geometric_witness :
    attemptSleep 5 = 2 ^ 5 ∧
    attemptSleep 6 = 2 * attemptSleep 5 ∧
    (apiTranslate (fun _ => HttpOutcome.exception) (fun _ => 0)).sleeps =
      [attemptSleep 0, attemptSleep 1] :=
  C4_backoff_geometric 5 (fun _ => HttpOutcome.exception) (fun _ => 0) (fun _ => rfl)

/-- A non-whitespace input of exactly the maximum configured length. -/
def atLimitText : String := String.mk (List.replicate MAX_TEXT_LENGTH 'a')

/-- A non-whitespace input one character over the maximum configured length. -/
def overLimitText : String := String.mk (List.replicate (MAX_TEXT_LENGTH + 1) 'a')

/-- C6: every non-whitespace input whose length equals `MAX_TEXT_LENGTH`
(5000) passes validation and is forwarded to the selected responder (the
result is the responder's dict with `service_used` attached); every input of
length `MAX_TEXT_LENGTH + 1` or more yields a validation failure that is the
same for every responder, i.e. without invoking any responder. -/
theorem C6_length_boundary (text long : String) (s1 s2 : String → TransRecord)
    (service_name : String)
    (h1 : pyStrip text ≠ "") (h2 : text.length = MAX_TEXT_LENGTH)
    (h3 : MAX_TEXT_LENGTH + 1 ≤ long.length) :
    translate_text s1 service_name text =
      { s1 text with service_used := some service_name } ∧
    (translate_text s1 service_name long).success = false ∧
    (translate_text s1 service_name long).error.isSome = true ∧
    translate_text s1 service_name long = translate_text s2 service_name long := by
  refine ⟨?_, ?_, ?_, ?_⟩
  · simp [translate_text, h1, h2]
  all_goals
    by_cases hb : pyStrip long = "" <;>
      simp [translate_text, hb, show MAX_TEXT_LENGTH < long.length by omega]

set_option maxRecDepth 100000 in
theorem C6_length_boundary_witness :
    pyStrip atLimitText ≠ "" ∧ atLimitText.length = MAX_TEXT_LENGTH ∧
    MAX_TEXT_LENGTH + 1 ≤ overLimitText.length ∧
    translate_text mockTranslate "Mock Service (Development)" atLimitText =
      { mockTranslate atLimitText with service_used := some "Mock Service (Development)" } ∧
    (translate_text mockTranslate "Mock Service (Development)" overLimitText).success = false ∧
    (translate_text mockTranslate "Mock Service (Development)" overLimitText).error.isSome = true ∧
    translate_text mockTranslate "Mock Service (Development)" overLimitText =
      translate_text (apiService (fun _ => HttpOutcome.exception) (fun _ => 0))
        "Mock Service (Development)" overLimitText := by
  have ha : pyStrip atLimitText ≠ "" := by decide
  have hb : atLimitText.length = MAX_TEXT_LENGTH := by
    simp [atLimitText, String.length]
  have hc : MAX_TEXT_LENGTH + 1 ≤ overLimitText.length := by
    simp [overLimitText, String.length]
  have h := C6_length_boundary atLimitText overLimitText mockTranslate
    (apiService (fun _ => HttpOutcome.exception) (fun _ => 0))
    "Mock Service (Development)" ha hb hc
  exact ⟨ha, hb, hc, h.1, h.2.1, h.2.2.1, h.2.2.2⟩

theorem passthrough_invariant (b : TransRecord) (t : ℚ) (h : resultInvariant b) :
    resultInvariant (passthrough b t) := by
  unfold resultInvariant passthrough at *
  exact h

theorem service_used_invariant (r : TransRecord) (n : String) (h : resultInvariant r) :
    resultInvariant { r with service_used := some n } := by
  unfold resultInvariant at *
  exact h

theorem failRec_invariant (msg : String) (t : ℚ) : resultInvariant (failRec msg t) := by
  unfold resultInvariant failRec
  simp

/-- Every dict returned by the retry loop satisfies the invariant, provided
every upstream 200 body does (the 200 path passes the body through). -/
theorem apiLoop_result_invariant (o : Nat → HttpOutcome) (e : Nat → ℚ) (maxR : Nat)
    (hup : ∀ a b, o a = HttpOutcome.response 200 b → resultInvariant b) :
    ∀ remaining attempt r,
      (apiLoop o e maxR remaining attempt).result = some r → resultInvariant r := by
  intro remaining
  induction remaining with
  | zero => intro attempt r hr; simp [apiLoop] at hr
  | succ n ih =>
    intro attempt r hr
    unfold apiLoop at hr
    cases ho : o attempt with
    | response status body =>
      rw [ho] at hr
      dsimp only at hr
      by_cases hs : status = 200
      · rw [if_pos hs, Option.some_inj] at hr
        subst hr
        exact passthrough_invariant _ _ (hup attempt body (hs ▸ ho))
      · rw [if_neg hs, Option.some_inj] at hr
        subst hr
        exact failRec_invariant _ _
    | exception =>
      rw [ho] at hr
      dsimp only at hr
      by_cases hl : attempt = maxR - 1
      · rw [if_pos hl, Option.some_inj] at hr
        subst hr
        exact failRec_invariant _ _
      · rw [if_neg hl] at hr
        exact ih (attempt + 1) r hr

/-- The upstream response body on the remote responder's 200 path, chosen so
that it violates the data-model invariant: the success flag is true but no
`translated_text` key is present. -/
def upstreamBadBody : TransRecord := { success := true }

/-- C1, counterexample: the invariant "success implies `translated_text`
present" does NOT hold on every path of `TurkishTranslator.translate_text`.
On the remote responder's 200 path the upstream JSON body is passed through
unchanged apart from the added `processing_time`, so a 200 body with
`success = true` and no `translated_text` yields a result violating the
invariant. -/
theorem C1_invariant_counterexample :
    (translate_text
        (apiService (fun _ => HttpOutcome.response 200 upstreamBadBody) (fun _ => 0))
        "AI Model (Production)" "merhaba").success = true ∧
    (translate_text
        (apiService (fun _ => HttpOutcome.response 200 upstreamBadBody) (fun _ => 0))
        "AI Model (Production)" "merhaba").translated_text = none ∧
    ¬ resultInvariant (translate_text
        (apiService (fun _ => HttpOutcome.response 200 upstreamBadBody) (fun _ => 0))
        "AI Model (Production)" "merhaba") := by
  refine ⟨by decide, by decide, ?_⟩
  intro hinv
  have := hinv.1 (by decide)
  rw [show (translate_text
      (apiService (fun _ => HttpOutcome.response 200 upstreamBadBody) (fun _ => 0))
      "AI Model (Production)" "merhaba").translated_text = none from by decide] at this
  simp at this

/-- C1, amended: every result of `TurkishTranslator.translate_text`
satisfies the invariant (success implies `translated_text` present, failure
implies an error message present) on all locally constructed paths —
validation failures, the mock responder, the remote responder's non-200 and
retries-exhausted failures — and on the remote 200 pass-through path as well
provided every upstream 200 body itself satisfies the invariant. -/
theorem C1_invariant_amended (text service_name : String)
    (o : Nat → HttpOutcome) (e : Nat → ℚ)
    (hup : ∀ a b, o a = HttpOutcome.response 200 b → resultInvariant b) :
    resultInvariant (translate_text mockTranslate service_name text) ∧
    resultInvariant (translate_text (apiService o e) service_name text) := by
  have hmock : resultInvariant (mockTranslate text) := by
    unfold resultInvariant mockTranslate
    simp
  have hapi : resultInvariant (apiService o e text) := by
    unfold apiService
    apply apiLoop_result_invariant o e max_retries hup max_retries 0
    exact (Option.some_get _).symm
  constructor <;>
    · unfold translate_text
      split
      · unfold resultInvariant; simp
      · split
        · unfold resultInvariant; simp
        · exact service_used_invariant _ _ (by assumption)

theorem C1_invariant_amended_witness :
    resultInvariant (translate_text mockTranslate "Mock Service (Development)" "merhaba") ∧
    resultInvariant (translate_text
      (apiService (fun _ => HttpOutcome.exception) (fun _ => 0))
      "Mock Service (Development)" "merhaba") :=
  C1_invariant_amended "merhaba" "Mock Service (Development)"
    (fun _ => HttpOutcome.exception) (fun _ => 0)
    (fun a b h => by simp at h)

end Bucolin
